import Mathlib

/-!
# Verification of the audio-reactive visualizer core

Shallow embedding of the algorithmic core of the `avatar` repository:
the speaker classifier, exponential signal smoothing, bar mapping,
color interpolation, and the per-frame sphere/grid scene updates,
translated from `src/unnamed/part_000` (class `AudioVisualizer` and the
volume-based classification inside `startAudioVisualization`).

JavaScript numbers are modelled as exact rationals (`ℚ`) where the code
does only field arithmetic; the transcendental pieces (`Math.sin`,
`Math.log`, `Math.exp`, `Math.sqrt`) are modelled over `ℝ`.  A JS value
that may be `NaN`/`undefined` is modelled as `Option ℚ` with `none`
standing for `NaN` (arithmetic on `none` propagates `none`, and the JS
idiom `x || 0` maps `none` to `0`).
-/

namespace Avatar

/-! ## Constants (`COLORS`, `ANIMATION` in the source) -/

def COLOR_LERP_SPEED : ℚ := 1/10
def BACKGROUND_LERP_SPEED : ℚ := 1/20
def SMOOTHING_FACTOR : ℚ := 7/10
def NUM_BARS : ℕ := 128
def VOICE_FREQ_MIN : ℚ := 80
def VOICE_FREQ_MAX : ℚ := 8000
def NYQUIST : ℚ := 22050

structure RGB where
  r : ℚ
  g : ℚ
  b : ℚ
deriving DecidableEq, Repr

def AI_DARK : RGB := ⟨0, 230, 255⟩
def AI_LIGHT : RGB := ⟨0, 200, 225⟩
def USER_DARK : RGB := ⟨255, 68, 120⟩
def USER_LIGHT : RGB := ⟨230, 50, 100⟩
def IDLE_DARK : RGB := ⟨10, 10, 10⟩
def IDLE_LIGHT : RGB := ⟨50, 50, 50⟩

/-! ## Speaker classification (`startAudioVisualization`, part_000 lines 1081–1106) -/

/-- `const speakingThreshold = 10` (the AI threshold). -/
def speakingThreshold : ℚ := 10

/-- `const userSpeakingThreshold = 15`. -/
def userSpeakingThreshold : ℚ := 15

inductive SpeakerState where
  | AISpeaking
  | UserSpeaking
  | Idle
deriving DecidableEq, Repr

/-- The per-frame three-way volume comparison of `updateVisualizer`:
`if (aiVolume > speakingThreshold) … else if (micVolume > userSpeakingThreshold) … else …`. -/
def classify (aiVolume micVolume : ℚ) : SpeakerState :=
  if aiVolume > speakingThreshold then .AISpeaking
  else if micVolume > userSpeakingThreshold then .UserSpeaking
  else .Idle

/-! ## Color state (`setColor`, `updateColorForCurrentState`, `setTheme`, `updateColors`) -/

/-- A JavaScript value passed to `setColor`: the code compares it against the
strings `'ai'`/`'user'` and the boolean `true`. -/
inductive JsVal where
  | str (s : String)
  | jsBool (b : Bool)
  | nullV
  | undefV
deriving DecidableEq, Repr

structure VisualizerState where
  theme : String
  currentState : String
  currentColor : RGB
  targetColor : RGB
  backgroundColor : RGB
  targetBackgroundColor : RGB
deriving DecidableEq, Repr

/-- `getIdleColorForTheme(theme)`:
`theme === 'dark' ? {...COLORS.IDLE_DARK} : {...COLORS.IDLE_LIGHT}`. -/
def getIdleColorForTheme (theme : String) : RGB :=
  if theme = "dark" then IDLE_DARK else IDLE_LIGHT

/-- `updateColorForCurrentState()`: picks `targetColor` from the current state and theme. -/
def updateColorForCurrentState (s : VisualizerState) : VisualizerState :=
  if s.currentState = "ai" then
    { s with targetColor := if s.theme = "dark" then AI_DARK else AI_LIGHT }
  else if s.currentState = "user" then
    { s with targetColor := if s.theme = "dark" then USER_DARK else USER_LIGHT }
  else
    { s with targetColor := getIdleColorForTheme s.theme }

/-- `setColor(state)`: `'ai'` or `true` → state `'ai'`; `'user'` → `'user'`;
anything else → `'idle'`; then `updateColorForCurrentState()`. -/
def setColor (state : JsVal) (s : VisualizerState) : VisualizerState :=
  let s' :=
    if state = .str "ai" ∨ state = .jsBool true then { s with currentState := "ai" }
    else if state = .str "user" then { s with currentState := "user" }
    else { s with currentState := "idle" }
  updateColorForCurrentState s'

/-- `setTheme(theme)`: stores the theme, retargets the background
(`dark` → black, else white), and either re-homes both colors to the idle
color (when idle) or recomputes only the target color. -/
def setTheme (theme : String) (s : VisualizerState) : VisualizerState :=
  let s' := { s with
    theme := theme
    targetBackgroundColor := if theme = "dark" then ⟨0, 0, 0⟩ else ⟨1, 1, 1⟩ }
  let idleColor := getIdleColorForTheme theme
  if s'.currentState = "idle" then
    { s' with currentColor := idleColor, targetColor := idleColor }
  else
    updateColorForCurrentState s'

/-- One channel of the per-frame color lerp in `updateColors()`:
`current += (target - current) * β`. -/
def lerpChannel (β c t : ℚ) : ℚ := c + (t - c) * β

/-- The color updates of `updateColors()`: `currentColor` moves toward
`targetColor` with `β = COLOR_LERP_SPEED`, and `backgroundColor.lerp(target, β)`
(`THREE.Color.lerp` is the same per-channel step) uses
`β = BACKGROUND_LERP_SPEED`. -/
def updateColors (s : VisualizerState) : VisualizerState :=
  { s with
    currentColor :=
      ⟨lerpChannel COLOR_LERP_SPEED s.currentColor.r s.targetColor.r,
       lerpChannel COLOR_LERP_SPEED s.currentColor.g s.targetColor.g,
       lerpChannel COLOR_LERP_SPEED s.currentColor.b s.targetColor.b⟩,
    backgroundColor :=
      ⟨lerpChannel BACKGROUND_LERP_SPEED s.backgroundColor.r s.targetBackgroundColor.r,
       lerpChannel BACKGROUND_LERP_SPEED s.backgroundColor.g s.targetBackgroundColor.g,
       lerpChannel BACKGROUND_LERP_SPEED s.backgroundColor.b s.targetBackgroundColor.b⟩ }

/-- Iterating the single-channel lerp `n` frames with a fixed target. -/
def lerpIter (β c t : ℚ) : ℕ → ℚ
  | 0 => c
  | n + 1 => lerpChannel β (lerpIter β c t n) t

/-! ## Audio data and exponential smoothing
(`updateAudioData`, `smoothAudioData`, part_000 lines 1600–1626)

`smoothedFrequencyData` entries are `Option ℚ`: `none` models the JS `NaN`
that arises when the in-place loop reads past the end of the buffer
(`undefined * 0.7 + raw[i] * 0.3` is `NaN`, and `NaN` is absorbing). -/

structure AudioState where
  frequencyData : List ℚ
  smoothedFrequencyData : List (Option ℚ)
deriving DecidableEq, Repr

/-- `updateAudioData(frequencyData)`: stores a copy of the raw data and, only
when the smoothed buffer is empty, initializes it as a copy of the raw data. -/
def updateAudioData (raw : List ℚ) (s : AudioState) : AudioState :=
  let s' := { s with frequencyData := raw }
  if s'.smoothedFrequencyData.length = 0 then
    { s' with smoothedFrequencyData := raw.map some }
  else s'

/-- `smoothAudioData()`: the in-place loop
`for (i = 0; i < frequencyData.length; i++) smoothed[i] = smoothed[i]*0.7 + raw[i]*0.3`.
Writing at an index `≥ smoothed.length` extends the JS array, so the resulting
buffer has length `max raw.length smoothed.length`; an extended entry reads the
old `smoothed[i]` as `undefined`, producing `NaN` (`none`). -/
def smoothAudioData (s : AudioState) : AudioState :=
  { s with smoothedFrequencyData :=
      ((List.range (max s.frequencyData.length s.smoothedFrequencyData.length)).map
        fun i =>
          if i < s.frequencyData.length then
            (s.smoothedFrequencyData.getD i none).map
              (fun v => v * SMOOTHING_FACTOR +
                s.frequencyData.getD i 0 * (1 - SMOOTHING_FACTOR))
          else s.smoothedFrequencyData.getD i none) }



/-! ## Bar mapping (`generateBarData`, part_000 lines 1645–1664) -/

/-- `minBin = Math.max(1, Math.floor((VOICE_FREQ_MIN / NYQUIST) * dataLength))`. -/
def minBin (dataLength : ℕ) : ℤ :=
  max 1 (Int.floor (VOICE_FREQ_MIN / NYQUIST * (dataLength : ℚ)))

/-- `maxBin = Math.min(dataLength - 1, Math.floor((VOICE_FREQ_MAX / NYQUIST) * dataLength))`. -/
def maxBin (dataLength : ℕ) : ℤ :=
  min ((dataLength : ℤ) - 1) (Int.floor (VOICE_FREQ_MAX / NYQUIST * (dataLength : ℚ)))

/-- The logarithmic bin index of bar `i`:
`index = Math.floor(Math.exp(logMin + (logMax - logMin) * (i / numBars)))`. -/
noncomputable def logBinIndex (dataLength : ℕ) (i : ℕ) : ℤ :=
  let t : ℝ := (i : ℝ) / (NUM_BARS : ℝ)
  let logMin := Real.log ((minBin dataLength : ℤ) : ℝ)
  let logMax := Real.log ((maxBin dataLength : ℤ) : ℝ)
  Int.floor (Real.exp (logMin + (logMax - logMin) * t))

/-- The clamped, defaulted access
`smoothedFrequencyData[Math.min(Math.max(index, 0), dataLength - 1)] || 0`:
the index is clamped to `[0, dataLength - 1]`, and a missing (out-of-range)
or `NaN` sample contributes `0`. -/
def clampedSample (spectrum : List (Option ℚ)) (index : ℤ) : ℚ :=
  let k := min (max index 0) ((spectrum.length : ℤ) - 1)
  if 0 ≤ k then ((spectrum.getD k.toNat none).getD 0) else 0

/-- `generateBarData()`: one normalized value per bar,
`barData.push(value / 255)`. -/
noncomputable def generateBarData (smoothed : List (Option ℚ)) : List ℚ :=
  (List.range NUM_BARS).map
    (fun i => clampedSample smoothed (logBinIndex smoothed.length i) / 255)

/-- A spectrum sample is well-formed when it is either `NaN` (`none`) or a
magnitude in `[0, 255]` (the range of `getByteFrequencyData`). -/
def validSample (v : Option ℚ) : Bool :=
  match v with
  | none => true
  | some q => decide (0 ≤ q) && decide (q ≤ 255)

/-! ## Sphere update (`updateSphere`, part_000 lines 1667–1678) -/

/-- The scale triple set by `updateSphere`:
`baseScale = 0.8 + avgValue*0.6` and per-axis pulses
`1 + Math.sin(time*8 [+ offset]) * avgValue * 0.15` with offsets
`0`, `Math.PI/3`, `Math.PI*2/3`. -/
noncomputable def sphereScale (avgValue time : ℝ) : ℝ × ℝ × ℝ :=
  let baseScale := 0.8 + avgValue * 0.6
  let pulseX := 1 + Real.sin (time * 8) * avgValue * 0.15
  let pulseY := 1 + Real.sin (time * 8 + Real.pi / 3) * avgValue * 0.15
  let pulseZ := 1 + Real.sin (time * 8 + Real.pi * 2 / 3) * avgValue * 0.15
  (baseScale * pulseX, baseScale * pulseY, baseScale * pulseZ)

/-! ## Grid update (`updateGrid`, part_000 lines 1725–1775) -/

/-- `distanceFromCenter = Math.sqrt((col-centerX)^2 + (row-centerY)^2)` with
`centerX = (gridCols-1)/2`, `centerY = (gridRows-1)/2`. -/
noncomputable def distanceFromCenter (gridRows gridCols row col : ℕ) : ℝ :=
  let centerX := ((gridCols : ℝ) - 1) / 2
  let centerY := ((gridRows : ℝ) - 1) / 2
  Real.sqrt (((col : ℝ) - centerX) ^ 2 + ((row : ℝ) - centerY) ^ 2)

/-- `maxDistance = Math.sqrt(centerX*centerX + centerY*centerY)`. -/
noncomputable def maxGridDistance (gridRows gridCols : ℕ) : ℝ :=
  let centerX := ((gridCols : ℝ) - 1) / 2
  let centerY := ((gridRows : ℝ) - 1) / 2
  Real.sqrt (centerX ^ 2 + centerY ^ 2)

/-- `normalizedDistance = distanceFromCenter / maxDistance`. -/
noncomputable def normalizedDistance (gridRows gridCols row col : ℕ) : ℝ :=
  distanceFromCenter gridRows gridCols row col / maxGridDistance gridRows gridCols

/-- The z position assigned to one grid square by `updateGrid`:
`wave = Math.sin(distance * 0.5 - time * 3)`,
`distanceFactor = Math.max(0, 1 - normalizedDistance * 2.5)`,
`lift = value*avgValue*5*distanceFactor + wave*avgValue*0.3*distanceFactor`,
`position.z = Math.max(0, lift)`. -/
noncomputable def gridZ (gridRows gridCols row col : ℕ) (value avgValue time : ℝ) : ℝ :=
  let waveSpeed : ℝ := 3
  let waveFrequency : ℝ := 0.5
  let wave := Real.sin (distanceFromCenter gridRows gridCols row col * waveFrequency -
    time * waveSpeed)
  let distanceFactor := max 0 (1 - normalizedDistance gridRows gridCols row col * 2.5)
  let lift := value * avgValue * 5 * distanceFactor + wave * avgValue * 0.3 * distanceFactor
  max 0 lift

/-! ## Theorems -/

/-- C1: the speaker classification yields `AISpeaking` whenever the AI average
volume exceeds the AI threshold 10 (AI priority, regardless of the user
volume); otherwise `UserSpeaking` whenever the user average volume exceeds the
user threshold 15; otherwise `Idle`; the AI threshold is strictly below the
user threshold; and `classify 20 5 = AISpeaking`, `classify 5 20 =
UserSpeaking`, `classify 5 5 = Idle`, `classify 20 20 = AISpeaking`. -/
theorem classify_priority_spec :
    (∀ avgAI avgUser : ℚ,
      (avgAI > speakingThreshold → classify avgAI avgUser = .AISpeaking) ∧
      (avgAI ≤ speakingThreshold → avgUser > userSpeakingThreshold →
        classify avgAI avgUser = .UserSpeaking) ∧
      (avgAI ≤ speakingThreshold → avgUser ≤ userSpeakingThreshold →
        classify avgAI avgUser = .Idle)) ∧
    speakingThreshold < userSpeakingThreshold ∧
    classify 20 5 = .AISpeaking ∧ classify 5 20 = .UserSpeaking ∧
    classify 5 5 = .Idle ∧ classify 20 20 = .AISpeaking := by
  refine ⟨fun a u => ⟨fun h => ?_, fun h1 h2 => ?_, fun h1 h2 => ?_⟩,
    by decide, by decide, by decide, by decide, by decide⟩
  · simp [classify, h]
  · simp [classify, not_lt.mpr h1, h2]
  · simp [classify, not_lt.mpr h1, not_lt.mpr h2]

/-- Witness for C1 at concrete volumes. -/
theorem classify_priority_spec_witness :
    classify 20 5 = .AISpeaking ∧ classify 5 20 = .UserSpeaking ∧
    classify 5 5 = .Idle := by
  refine ⟨(classify_priority_spec.1 20 5).1 (by decide),
    (classify_priority_spec.1 5 20).2.1 (by decide) (by decide),
    (classify_priority_spec.1 5 5).2.2 (by decide) (by decide)⟩

/-- `updateColorForCurrentState` only writes `targetColor`. -/
lemma updateColorForCurrentState_targetBackgroundColor (s : VisualizerState) :
    (updateColorForCurrentState s).targetBackgroundColor = s.targetBackgroundColor := by
  unfold updateColorForCurrentState
  split
  · rfl
  · split <;> rfl

/-- `updateColorForCurrentState` leaves the current color unchanged. -/
lemma updateColorForCurrentState_currentColor (s : VisualizerState) :
    (updateColorForCurrentState s).currentColor = s.currentColor := by
  unfold updateColorForCurrentState
  split
  · rfl
  · split <;> rfl

/-- C6: `setTheme` retargets the background (dark → black, otherwise white);
when the current state is idle it immediately sets both the current and the
target color to the new theme's idle color; when the current state is `ai` or
`user` it recomputes only the target color for that state and theme and leaves
the current color unchanged. -/
theorem setTheme_spec :
    ∀ (theme : String) (s : VisualizerState),
      ((setTheme theme s).targetBackgroundColor =
        if theme = "dark" then (⟨0, 0, 0⟩ : RGB) else ⟨1, 1, 1⟩) ∧
      (s.currentState = "idle" →
        (setTheme theme s).currentColor = getIdleColorForTheme theme ∧
        (setTheme theme s).targetColor = getIdleColorForTheme theme) ∧
      (s.currentState = "ai" →
        (setTheme theme s).currentColor = s.currentColor ∧
        (setTheme theme s).targetColor =
          (if theme = "dark" then AI_DARK else AI_LIGHT)) ∧
      (s.currentState = "user" →
        (setTheme theme s).currentColor = s.currentColor ∧
        (setTheme theme s).targetColor =
          (if theme = "dark" then USER_DARK else USER_LIGHT)) := by
  intro theme s
  refine ⟨?_, fun h => ?_, fun h => ?_, fun h => ?_⟩
  · simp only [setTheme]
    split
    · simp
    · rw [updateColorForCurrentState_targetBackgroundColor]
  · simp [setTheme, h]
  · simp [setTheme, updateColorForCurrentState, h]
  · simp [setTheme, updateColorForCurrentState, h]

/-- Witness for C6 on a concrete dark-theme switch from each state. -/
theorem setTheme_spec_witness :
    (setTheme "dark" ⟨"light", "idle", IDLE_LIGHT, IDLE_LIGHT, ⟨1, 1, 1⟩, ⟨1, 1, 1⟩⟩).currentColor
        = getIdleColorForTheme "dark" ∧
    (setTheme "dark" ⟨"light", "ai", AI_LIGHT, AI_LIGHT, ⟨1, 1, 1⟩, ⟨1, 1, 1⟩⟩).targetColor
        = AI_DARK := by
  constructor
  · exact ((setTheme_spec "dark"
      ⟨"light", "idle", IDLE_LIGHT, IDLE_LIGHT, ⟨1, 1, 1⟩, ⟨1, 1, 1⟩⟩).2.1 rfl).1
  · have h := ((setTheme_spec "dark"
      ⟨"light", "ai", AI_LIGHT, AI_LIGHT, ⟨1, 1, 1⟩, ⟨1, 1, 1⟩⟩).2.2.1 rfl).2
    simpa using h

/-- C9: every argument to `setColor` other than `'ai'`, `true` and `'user'`
(booleans other than `true`, `null`, `undefined`, unrecognized strings) yields
the idle state with the idle target color for the current theme, and every
theme other than `'dark'` selects the light idle color. -/
theorem setColor_fallback_spec :
    (∀ (v : JsVal) (s : VisualizerState),
      v ≠ .str "ai" → v ≠ .jsBool true → v ≠ .str "user" →
      (setColor v s).currentState = "idle" ∧
      (setColor v s).targetColor = getIdleColorForTheme s.theme) ∧
    (∀ theme : String, theme ≠ "dark" → getIdleColorForTheme theme = IDLE_LIGHT) := by
  constructor
  · intro v s h1 h2 h3
    simp [setColor, updateColorForCurrentState, h1, h2, h3]
  · intro theme h
    simp [getIdleColorForTheme, h]

/-- Witness for C9 at `null` input and the `'light'` theme. -/
theorem setColor_fallback_spec_witness :
    (setColor .nullV ⟨"light", "ai", AI_LIGHT, AI_LIGHT, ⟨1, 1, 1⟩, ⟨1, 1, 1⟩⟩).currentState
        = "idle" ∧
    getIdleColorForTheme "light" = IDLE_LIGHT := by
  constructor
  · exact (setColor_fallback_spec.1 .nullV
      ⟨"light", "ai", AI_LIGHT, AI_LIGHT, ⟨1, 1, 1⟩, ⟨1, 1, 1⟩⟩
      (by decide) (by decide) (by decide)).1
  · exact setColor_fallback_spec.2 "light" (by decide)

/-- One lerp step scales the remaining gap by `1 - β`. -/
lemma lerpChannel_sub (β c t : ℚ) : t - lerpChannel β c t = (t - c) * (1 - β) := by
  unfold lerpChannel
  ring

/-- After `n` frames the remaining gap is `(t - c) * (1 - β) ^ n`. -/
lemma lerpIter_sub (β c t : ℚ) (n : ℕ) :
    t - lerpIter β c t n = (t - c) * (1 - β) ^ n := by
  induction n with
  | zero => simp [lerpIter]
  | succ n ih =>
    rw [lerpIter, lerpChannel_sub, ih]
    ring

/-- Closed form of the iterated lerp. -/
lemma lerpIter_eq (β c t : ℚ) (n : ℕ) :
    lerpIter β c t n = t - (t - c) * (1 - β) ^ n := by
  have h := lerpIter_sub β c t n
  linarith

/-- A value of the form `t - (t - c) * p` with `p ∈ [0, 1]` lies between `c` and `t`. -/
lemma between_of_unit_factor (c t p : ℚ) (hp0 : 0 ≤ p) (hp1 : p ≤ 1) :
    min c t ≤ t - (t - c) * p ∧ t - (t - c) * p ≤ max c t := by
  rcases le_total c t with h | h
  · rw [min_eq_left h, max_eq_right h]
    constructor
    · nlinarith [mul_nonneg (sub_nonneg.2 h) (sub_nonneg.2 hp1)]
    · nlinarith [mul_nonneg (sub_nonneg.2 h) hp0]
  · rw [min_eq_right h, max_eq_left h]
    constructor
    · nlinarith [mul_nonneg (sub_nonneg.2 h) hp0]
    · nlinarith [mul_nonneg (sub_nonneg.2 h) (sub_nonneg.2 hp1)]

/-- C5: `updateColors` advances each channel of the current color by
`current += (target - current) * β` with `β = COLOR_LERP_SPEED = 0.1 ∈ (0,1)`,
and for every `β ∈ (0,1)` the iterated step converges to within any `ε > 0` of
the target after a bounded number of frames, the sign of `target - current`
never flips, and the current value always stays between its initial value and
the target (no overshoot). -/
theorem updateColors_lerp_spec :
    (∀ s : VisualizerState,
      (updateColors s).currentColor =
        ⟨lerpChannel COLOR_LERP_SPEED s.currentColor.r s.targetColor.r,
         lerpChannel COLOR_LERP_SPEED s.currentColor.g s.targetColor.g,
         lerpChannel COLOR_LERP_SPEED s.currentColor.b s.targetColor.b⟩) ∧
    (COLOR_LERP_SPEED = 1/10 ∧ 0 < COLOR_LERP_SPEED ∧ COLOR_LERP_SPEED < 1) ∧
    (∀ β c t : ℚ, 0 < β → β < 1 →
      (∀ ε : ℚ, 0 < ε → ∃ N, ∀ n, N ≤ n → |t - lerpIter β c t n| < ε) ∧
      (∀ n, (0 ≤ t - c → 0 ≤ t - lerpIter β c t n) ∧
            (t - c ≤ 0 → t - lerpIter β c t n ≤ 0)) ∧
      (∀ n, min c t ≤ lerpIter β c t n ∧ lerpIter β c t n ≤ max c t)) := by
  refine ⟨fun s => rfl, ⟨rfl, by norm_num [COLOR_LERP_SPEED], by norm_num [COLOR_LERP_SPEED]⟩,
    fun β c t hβ0 hβ1 => ?_⟩
  have h0 : (0 : ℚ) ≤ 1 - β := by linarith
  have h1 : 1 - β ≤ 1 := by linarith
  have hlt : 1 - β < 1 := by linarith
  have hpow : ∀ n : ℕ, 0 ≤ (1 - β) ^ n := fun n => pow_nonneg h0 n
  have hpow1 : ∀ n : ℕ, (1 - β) ^ n ≤ 1 := fun n => pow_le_one₀ h0 h1
  refine ⟨fun ε hε => ?_, fun n => ?_, fun n => ?_⟩
  · rcases eq_or_ne (t - c) 0 with hd | hd
    · exact ⟨0, fun n _ => by rw [lerpIter_sub, hd, zero_mul, abs_zero]; exact hε⟩
    · have habs : 0 < |t - c| := abs_pos.2 hd
      obtain ⟨N, hN⟩ := exists_pow_lt_of_lt_one (div_pos hε habs) hlt
      refine ⟨N, fun n hn => ?_⟩
      rw [lerpIter_sub, abs_mul, abs_of_nonneg (hpow n)]
      have hle : (1 - β) ^ n ≤ (1 - β) ^ N := pow_le_pow_of_le_one h0 h1 hn
      calc |t - c| * (1 - β) ^ n ≤ |t - c| * (1 - β) ^ N := by
              exact mul_le_mul_of_nonneg_left hle (le_of_lt habs)
        _ < |t - c| * (ε / |t - c|) := by
              exact mul_lt_mul_of_pos_left (hN) habs
        _ = ε := by field_simp
  · rw [lerpIter_sub]
    exact ⟨fun h => mul_nonneg h (hpow n), fun h => mul_nonpos_of_nonpos_of_nonneg h (hpow n)⟩
  · rw [lerpIter_eq]
    exact between_of_unit_factor c t _ (hpow n) (hpow1 n)

/-- Witness for C5 with `β = COLOR_LERP_SPEED`, `c = 0`, `t = 255`, `ε = 1`. -/
theorem updateColors_lerp_spec_witness :
    (0 < COLOR_LERP_SPEED ∧ COLOR_LERP_SPEED < 1) ∧
    (∃ N, ∀ n, N ≤ n → |(255 : ℚ) - lerpIter COLOR_LERP_SPEED 0 255 n| < 1) ∧
    (min (0 : ℚ) 255 ≤ lerpIter COLOR_LERP_SPEED 0 255 3 ∧
      lerpIter COLOR_LERP_SPEED 0 255 3 ≤ max (0 : ℚ) 255) := by
  refine ⟨⟨by norm_num [COLOR_LERP_SPEED], by norm_num [COLOR_LERP_SPEED]⟩, ?_, ?_⟩
  · exact (updateColors_lerp_spec.2.2 COLOR_LERP_SPEED 0 255
      (by norm_num [COLOR_LERP_SPEED]) (by norm_num [COLOR_LERP_SPEED])).1 1 (by norm_num)
  · exact (updateColors_lerp_spec.2.2 COLOR_LERP_SPEED 0 255
      (by norm_num [COLOR_LERP_SPEED]) (by norm_num [COLOR_LERP_SPEED])).2.2 3

/-- `getD` on a mapped range evaluates the function. -/
lemma getD_range_map {α : Type} (M i : ℕ) (f : ℕ → α) (d : α) (h : i < M) :
    ((List.range M).map f).getD i d = f i := by
  simp [List.getD_eq_getElem?_getD, List.getElem?_map, List.getElem?_range h]

/-- An in-range `getD` is a member of the list. -/
lemma getD_mem {α : Type} (l : List α) (i : ℕ) (d : α) (h : i < l.length) :
    l.getD i d ∈ l := by
  rw [List.getD_eq_getElem?_getD, List.getElem?_eq_getElem h]
  exact List.getElem?_mem (List.getElem?_eq_getElem h)

/-- A `some` result of a `getD` with default `none` is a member of the list. -/
lemma mem_of_getD_eq_some {α : Type} (l : List (Option α)) (i : ℕ) (a : α)
    (h : l.getD i none = some a) : some a ∈ l := by
  rw [List.getD_eq_getElem?_getD] at h
  rcases hlt : l[i]? with _ | v
  · rw [hlt] at h
    simp at h
  · rw [hlt] at h
    simp only [Option.getD_some] at h
    subst h
    exact List.getElem?_mem hlt

/-- The entry of the smoothed buffer at an index covered by the raw data:
the in-place exponential filter, with `NaN` (`none`) propagating. -/
lemma smoothAudioData_getD (s : AudioState) (i : ℕ) (h : i < s.frequencyData.length) :
    (smoothAudioData s).smoothedFrequencyData.getD i none =
      (s.smoothedFrequencyData.getD i none).map
        (fun v => v * SMOOTHING_FACTOR +
          s.frequencyData.getD i 0 * (1 - SMOOTHING_FACTOR)) := by
  have hi : i < max s.frequencyData.length s.smoothedFrequencyData.length :=
    lt_of_lt_of_le h (le_max_left _ _)
  unfold smoothAudioData
  rw [getD_range_map _ _ _ _ hi, if_pos h]

/-- The entry of the smoothed buffer at an index beyond the raw data is kept. -/
lemma smoothAudioData_getD_of_ge (s : AudioState) (i : ℕ)
    (h : ¬ i < s.frequencyData.length)
    (h2 : i < s.smoothedFrequencyData.length) :
    (smoothAudioData s).smoothedFrequencyData.getD i none =
      s.smoothedFrequencyData.getD i none := by
  have hi : i < max s.frequencyData.length s.smoothedFrequencyData.length :=
    lt_of_lt_of_le h2 (le_max_right _ _)
  unfold smoothAudioData
  rw [getD_range_map _ _ _ _ hi, if_neg h]

/-- C3: when the smoothed buffer is empty, `updateAudioData` initializes it as
an element-wise copy of the raw data; and each `smoothAudioData` step updates
every index `i` of the raw array in place to
`smoothed[i] = smoothed[i] * 0.7 + raw[i] * 0.3`. -/
theorem smoothing_init_step_spec :
    ∀ (raw : List ℚ) (s : AudioState),
      (s.smoothedFrequencyData = [] →
        (updateAudioData raw s).frequencyData = raw ∧
        (updateAudioData raw s).smoothedFrequencyData = raw.map some) ∧
      (∀ i, i < s.frequencyData.length →
        ∀ q, s.smoothedFrequencyData.getD i none = some q →
          (smoothAudioData s).smoothedFrequencyData.getD i none =
            some (q * (7/10) + s.frequencyData.getD i 0 * (3/10))) := by
  intro raw s
  constructor
  · intro h
    constructor
    · simp [updateAudioData, h]
    · simp [updateAudioData, h]
  · intro i hi q hq
    rw [smoothAudioData_getD s i hi, hq]
    simp only [Option.map_some', Option.some.injEq, SMOOTHING_FACTOR]
    norm_num

/-- Witness for C3: first-frame initialization and one concrete filter step. -/
theorem smoothing_init_step_spec_witness :
    (updateAudioData [1, 2] ⟨[], []⟩).smoothedFrequencyData = [some 1, some 2] ∧
    (smoothAudioData ⟨[100], [some 50]⟩).smoothedFrequencyData.getD 0 none
      = some (50 * (7/10) + 100 * (3/10)) := by
  constructor
  · exact ((smoothing_init_step_spec [1, 2] ⟨[], []⟩).1 rfl).2
  · have h := (smoothing_init_step_spec [] ⟨[100], [some 50]⟩).2 0 (by norm_num) 50 rfl
    simpa using h

/-- C4: one smoothing step keeps every (non-`NaN`) smoothed value in
`[0, 255]` when all inputs are, and at every raw index the distance of the
smoothed value to the raw value is multiplied by exactly
`SMOOTHING_FACTOR = 0.7`, hence never increases: holding the raw input
constant, the buffer converges monotonically toward it. -/
theorem smoothing_bounds_contraction_spec :
    ∀ s : AudioState,
      ((∀ v ∈ s.smoothedFrequencyData, ∀ q, v = some q → 0 ≤ q ∧ q ≤ 255) →
       (∀ x ∈ s.frequencyData, 0 ≤ x ∧ x ≤ 255) →
       ∀ v ∈ (smoothAudioData s).smoothedFrequencyData,
         ∀ q, v = some q → 0 ≤ q ∧ q ≤ 255) ∧
      (∀ i, i < s.frequencyData.length → ∀ q,
        s.smoothedFrequencyData.getD i none = some q →
        |((smoothAudioData s).smoothedFrequencyData.getD i none).getD 0
            - s.frequencyData.getD i 0|
          = SMOOTHING_FACTOR * |q - s.frequencyData.getD i 0| ∧
        |((smoothAudioData s).smoothedFrequencyData.getD i none).getD 0
            - s.frequencyData.getD i 0|
          ≤ |q - s.frequencyData.getD i 0|) := by
  intro s
  constructor
  · intro hS hR v hv q hq
    subst hq
    unfold smoothAudioData at hv
    simp only [List.mem_map, List.mem_range] at hv
    obtain ⟨i, hiM, hfi⟩ := hv
    by_cases hir : i < s.frequencyData.length
    · rw [if_pos hir] at hfi
      rcases ho : s.smoothedFrequencyData.getD i none with _ | q₀
      · rw [ho] at hfi
        simp at hfi
      · rw [ho] at hfi
        simp only [Option.map_some', Option.some.injEq] at hfi
        have hq₀ := hS _ (mem_of_getD_eq_some _ _ _ ho) q₀ rfl
        have hr := hR _ (getD_mem s.frequencyData i 0 hir)
        rw [← hfi]
        constructor
        · simp only [SMOOTHING_FACTOR]
          linarith [hq₀.1, hr.1]
        · simp only [SMOOTHING_FACTOR]
          linarith [hq₀.1, hq₀.2, hr.1, hr.2]
    · rw [if_neg hir] at hfi
      rcases ho : s.smoothedFrequencyData.getD i none with _ | q₀
      · rw [ho] at hfi
        simp at hfi
      · rw [ho] at hfi
        obtain rfl : q₀ = q := by injection hfi
        exact hS _ (mem_of_getD_eq_some _ _ _ ho) _ rfl
  · intro i hi q hq
    rw [smoothAudioData_getD s i hi, hq]
    simp only [Option.map_some', Option.getD_some]
    set r := s.frequencyData.getD i 0 with hr
    have key : q * SMOOTHING_FACTOR + r * (1 - SMOOTHING_FACTOR) - r
        = SMOOTHING_FACTOR * (q - r) := by ring
    rw [key, abs_mul, abs_of_nonneg (show (0:ℚ) ≤ SMOOTHING_FACTOR by
      norm_num [SMOOTHING_FACTOR])]
    exact ⟨rfl, mul_le_of_le_one_left (abs_nonneg _)
      (by norm_num [SMOOTHING_FACTOR])⟩

/-- Witness for C4 on a concrete one-entry state. -/
theorem smoothing_bounds_contraction_spec_witness :
    (∀ v ∈ (smoothAudioData ⟨[100], [some 50]⟩).smoothedFrequencyData,
      ∀ q, v = some q → 0 ≤ q ∧ q ≤ 255) ∧
    |((smoothAudioData ⟨[100], [some 50]⟩).smoothedFrequencyData.getD 0 none).getD 0
        - ([(100:ℚ)].getD 0 0)|
      = SMOOTHING_FACTOR * |(50:ℚ) - ([(100:ℚ)].getD 0 0)| := by
  constructor
  · exact (smoothing_bounds_contraction_spec ⟨[100], [some 50]⟩).1
      (by intro v hv q hq; simp at hv; rw [hv] at hq; simp at hq; subst hq; norm_num)
      (by intro x hx; simp at hx; subst hx; norm_num)
  · exact ((smoothing_bounds_contraction_spec ⟨[100], [some 50]⟩).2 0
      (by norm_num) 50 rfl).1

/-- C8 (the code at the spec's failing scenario): a raw array of length 2
against an existing smoothed buffer of length 1 is *not* re-initialized; the
old entry is blended and the new entry becomes `NaN`
(`undefined * 0.7 + 60 * 0.3`), so the buffer ends as `[85, NaN]`. -/
theorem smoothing_mismatch_eval :
    (smoothAudioData (updateAudioData [50, 60] ⟨[], [some 100]⟩)).smoothedFrequencyData
      = [some 85, none] ∧
    (smoothAudioData (updateAudioData [50] ⟨[], [some 100, some 200]⟩)).smoothedFrequencyData
      = [some 85, some 200] := by
  constructor
  · norm_num [smoothAudioData, updateAudioData, SMOOTHING_FACTOR, List.range_succ]
  · norm_num [smoothAudioData, updateAudioData, SMOOTHING_FACTOR, List.range_succ]

/-- A clamped sample of a well-formed spectrum lies in `[0, 255]`. -/
lemma clampedSample_bounds (spectrum : List (Option ℚ))
    (hS : ∀ v ∈ spectrum, validSample v = true) (index : ℤ) :
    0 ≤ clampedSample spectrum index ∧ clampedSample spectrum index ≤ 255 := by
  unfold clampedSample
  by_cases h0 : 0 ≤ min (max index 0) ((spectrum.length : ℤ) - 1)
  · rw [if_pos h0]
    rcases he : spectrum.getD (min (max index 0) ((spectrum.length : ℤ) - 1)).toNat none
      with _ | q
    · simp
    · have := hS _ (mem_of_getD_eq_some _ _ _ he)
      simp only [validSample, Bool.and_eq_true, decide_eq_true_eq] at this
      simpa using this
  · rw [if_neg h0]
    norm_num

/-- A clamped sample of an all-zero spectrum is `0`. -/
lemma clampedSample_zero (spectrum : List (Option ℚ))
    (hZ : ∀ v ∈ spectrum, v = some 0) (index : ℤ) :
    clampedSample spectrum index = 0 := by
  unfold clampedSample
  by_cases h0 : 0 ≤ min (max index 0) ((spectrum.length : ℤ) - 1)
  · rw [if_pos h0]
    rcases he : spectrum.getD (min (max index 0) ((spectrum.length : ℤ) - 1)).toNat none
      with _ | q
    · simp
    · have := hZ _ (mem_of_getD_eq_some _ _ _ he)
      simp only [Option.some.injEq] at this
      simp [this]
  · rw [if_neg h0]

/-- C2: `generateBarData` always returns exactly `NUM_BARS = 128` values; each
value is the clamped, missing-as-`0` sample at the computed bin index divided
by 255; when all (non-`NaN`) samples lie in `[0, 255]` every output lies in
`[0, 1]`; and an all-zero spectrum yields all zeros — for spectra of any
length, including the empty one. -/
theorem generateBarData_spec :
    ∀ smoothed : List (Option ℚ),
      (generateBarData smoothed).length = NUM_BARS ∧
      (∀ i, i < NUM_BARS → (generateBarData smoothed).getD i 0 =
        clampedSample smoothed (logBinIndex smoothed.length i) / 255) ∧
      ((∀ v ∈ smoothed, validSample v = true) →
        ∀ x ∈ generateBarData smoothed, 0 ≤ x ∧ x ≤ 1) ∧
      ((∀ v ∈ smoothed, v = some 0) →
        ∀ x ∈ generateBarData smoothed, x = 0) := by
  intro sm
  refine ⟨by simp [generateBarData], fun i hi => ?_, fun hS x hx => ?_, fun hZ x hx => ?_⟩
  · unfold generateBarData
    rw [getD_range_map _ _ _ _ hi]
  · unfold generateBarData at hx
    simp only [List.mem_map, List.mem_range] at hx
    obtain ⟨i, _, hxe⟩ := hx
    obtain ⟨hl, hu⟩ := clampedSample_bounds sm hS (logBinIndex sm.length i)
    rw [← hxe]
    constructor
    · positivity
    · rw [div_le_one (by norm_num)]
      linarith
  · unfold generateBarData at hx
    simp only [List.mem_map, List.mem_range] at hx
    obtain ⟨i, _, hxe⟩ := hx
    rw [← hxe, clampedSample_zero sm hZ, zero_div]

/-- Witness for C2 on the one-entry all-zero spectrum. -/
theorem generateBarData_spec_witness :
    (generateBarData [some 0]).length = NUM_BARS ∧
    (∀ x ∈ generateBarData [some 0], 0 ≤ x ∧ x ≤ 1) ∧
    (∀ x ∈ generateBarData [some 0], x = 0) := by
  obtain ⟨h1, _, h3, h4⟩ := generateBarData_spec [some 0]
  exact ⟨h1, h3 (by intro v hv; simp at hv; simp [hv, validSample]),
    h4 (by intro v hv; simpa using hv)⟩

/-- C7 counterexample: the z-axis pulsation does not use phase offset `4π/3`.
At `avgValue = 1`, `time = 0` the code's z scale is
`1.4 * (1 + sin(2π/3) * 0.15)` while the claimed formula gives
`1.4 * (1 + sin(4π/3) * 0.15)`, and `sin(2π/3) = √3/2 ≠ -√3/2 = sin(4π/3)`. -/
theorem sphereScale_phase_counterexample :
    ((sphereScale 1 0).2.2 ≠
      (0.8 + 1 * 0.6) * (1 + Real.sin (8 * 0 + Real.pi * 4 / 3) * 1 * 0.15)) ∧
    ((sphereScale 1 (Real.pi / 16)).2.1 ≠
      (0.8 + 1 * 0.6) *
        (1 + Real.sin (8 * (Real.pi / 16) + Real.pi * 2 / 3) * 1 * 0.15)) := by
  constructor
  · have hL : (sphereScale 1 0).2.2 =
        (0.8 + 1 * 0.6) * (1 + Real.sin ((0 : ℝ) * 8 + Real.pi * 2 / 3) * 1 * 0.15) := rfl
    have e23 : (0 : ℝ) * 8 + Real.pi * 2 / 3 = Real.pi - Real.pi / 3 := by ring
    have e43 : 8 * (0 : ℝ) + Real.pi * 4 / 3 = Real.pi / 3 + Real.pi := by ring
    rw [hL, e23, e43, Real.sin_pi_sub, Real.sin_add_pi, Real.sin_pi_div_three]
    have hs3 : 0 < Real.sqrt 3 := Real.sqrt_pos.mpr (by norm_num)
    intro h
    nlinarith [h, hs3]
  · have hL : (sphereScale 1 (Real.pi / 16)).2.1 =
        (0.8 + 1 * 0.6) *
          (1 + Real.sin (Real.pi / 16 * 8 + Real.pi / 3) * 1 * 0.15) := rfl
    have e1 : Real.pi / 16 * 8 + Real.pi / 3 = Real.pi / 3 + Real.pi / 2 := by ring
    have e2 : 8 * (Real.pi / 16) + Real.pi * 2 / 3 =
        Real.pi - Real.pi / 3 + Real.pi / 2 := by ring
    rw [hL, e1, e2, Real.sin_add_pi_div_two, Real.sin_add_pi_div_two,
      Real.cos_pi_sub, Real.cos_pi_div_three]
    intro h
    nlinarith [h]

/-- C7 (amended): on every frame the sphere's scale equals
`(0.8 + avgValue*0.6)` multiplied per axis by `1 + sin(8t + φ)*avgValue*0.15`
with phase offsets `φ = 0`, `π/3` and `2π/3` on the x, y and z axes. -/
theorem sphereScale_phase_spec :
    ∀ avgValue time : ℝ,
      sphereScale avgValue time =
        ((0.8 + avgValue * 0.6) * (1 + Real.sin (8 * time + 0) * avgValue * 0.15),
         (0.8 + avgValue * 0.6) *
           (1 + Real.sin (8 * time + Real.pi / 3) * avgValue * 0.15),
         (0.8 + avgValue * 0.6) *
           (1 + Real.sin (8 * time + Real.pi * 2 / 3) * avgValue * 0.15)) := by
  intro a t
  have e1 : 8 * t + 0 = t * 8 := by ring
  have e2 : 8 * t + Real.pi / 3 = t * 8 + Real.pi / 3 := by ring
  have e3 : 8 * t + Real.pi * 2 / 3 = t * 8 + Real.pi * 2 / 3 := by ring
  rw [e1, e2, e3]
  rfl

/-- C10: after every grid update each square's z position is non-negative
(the lift is clamped at 0), and every square whose normalized distance from
the grid center is at least 0.4 has z position exactly 0 — for all bar
values, average volumes and times. -/
theorem gridZ_clamp_spec :
    ∀ (gridRows gridCols row col : ℕ) (value avgValue time : ℝ),
      0 ≤ gridZ gridRows gridCols row col value avgValue time ∧
      (0.4 ≤ normalizedDistance gridRows gridCols row col →
        gridZ gridRows gridCols row col value avgValue time = 0) := by
  intro R C r c v a t
  refine ⟨le_max_left 0 _, fun h => ?_⟩
  have hdf : max (0 : ℝ) (1 - normalizedDistance R C r c * 2.5) = 0 :=
    max_eq_left (by nlinarith)
  unfold gridZ
  rw [hdf]
  norm_num

/-- Witness for C10: the corner square of a 2×2 grid has normalized distance 1
and therefore sits exactly on the grid plane. -/
theorem gridZ_clamp_spec_witness : gridZ 2 2 0 0 1 1 0 = 0 := by
  apply (gridZ_clamp_spec 2 2 0 0 1 1 0).2
  have hd : distanceFromCenter 2 2 0 0 = maxGridDistance 2 2 := by
    unfold distanceFromCenter maxGridDistance
    norm_num
  have hpos : 0 < maxGridDistance 2 2 := by
    unfold maxGridDistance
    apply Real.sqrt_pos.mpr
    norm_num
  unfold normalizedDistance
  rw [hd, div_self (ne_of_gt hpos)]
  norm_num

end Avatar
